import Mathlib

/-!
Shallow embedding of the contract-extractor repository
(src/processor.py and src/streamlit_app.py) together with theorems that
settle the frozen claims about its specification.

Modelling conventions:
* Python byte strings are `List Nat`.
* JSON scalar payloads are `JVal`; a model response restricted to the
  schema keys is `RawContract`, where `none` means the key was omitted.
* Pydantic validation of the structured-output response (the SDK path
  that fills `response.parsed`) is `model_validate`; it fails with a
  `SchemaViolation` exactly when a required field is missing or a value
  has the wrong type, and applies the declared field defaults otherwise.
* Python floats arriving as JSON numbers are modelled as rationals `ℚ`;
  the claims proved about currency formatting concern only its shape
  (a dollar sign and two decimals), which does not depend on binary
  floating-point subtleties.
* The external Gemini call `client.models.generate_content` is an oracle
  parameter `generate_content : List Part → Except PyErr
  GenerateContentResponse`; the SDK's `response.parsed` attribute is the
  `parsed : Option SoftwareContract` field (it is `None` when the
  provider payload does not validate against the response schema).
* The filesystem is a partial map `String → Option (List Nat)`
  (`none` = path does not exist).
-/

namespace ContractExtractor

/-- JSON scalar values, as they appear in a structured-output response
or in a few-shot manifest's `expected_output` object. -/
inductive JVal where
  | jnull
  | jbool (b : Bool)
  | jint (n : Int)
  | jnum (q : ℚ)
  | jstr (s : String)
deriving DecidableEq, Repr

/-- The `SoftwareContract` pydantic model of `src/processor.py` (lines
17-41): three required string fields, twelve optional fields defaulting
to `None`, and two defaulted required fields
(`data_ownership : str = "DEALER"`, `license_count : int = -1`). -/
structure SoftwareContract where
  software_system_name : String
  vendor_name_dba : String
  vendor_name_legal : String
  contract_start : Option String
  contract_end : Option String
  contract_period : Option Int
  auto_renewal : Option Bool
  cancellation_notice_initial : Option Int
  cancellation_notice_ongoing : Option Int
  payment_terms : Option String
  payment_delay : Option Int
  payment_amount_setup : Option ℚ
  payment_amount_per_terms : Option ℚ
  sla_uptime_guarantee : Option String
  integration_clauses : Option String
  data_ownership : String
  license_count : Int
deriving DecidableEq, Repr

/-- A model response's JSON object, restricted to the declared schema
keys (the request declares `response_schema = SoftwareContract`, so the
provider returns only these keys). `none` means the key was omitted
from the response. -/
structure RawContract where
  software_system_name : Option JVal := none
  vendor_name_dba : Option JVal := none
  vendor_name_legal : Option JVal := none
  contract_start : Option JVal := none
  contract_end : Option JVal := none
  contract_period : Option JVal := none
  auto_renewal : Option JVal := none
  cancellation_notice_initial : Option JVal := none
  cancellation_notice_ongoing : Option JVal := none
  payment_terms : Option JVal := none
  payment_delay : Option JVal := none
  payment_amount_setup : Option JVal := none
  payment_amount_per_terms : Option JVal := none
  sla_uptime_guarantee : Option JVal := none
  integration_clauses : Option JVal := none
  data_ownership : Option JVal := none
  license_count : Option JVal := none
deriving DecidableEq, Repr

/-- Pydantic validation failure (required field missing or wrong type). -/
inductive SchemaViolation where
  | invalid
deriving DecidableEq, Repr

/-- Sequencing of fallible validation steps (pydantic stops a field's
validation at the first error; which field errors first is immaterial
to the claims). -/
def bindE {α β : Type} (x : Except SchemaViolation α)
    (f : α → Except SchemaViolation β) : Except SchemaViolation β :=
  match x with
  | Except.error e => Except.error e
  | Except.ok a => f a

/-- Required `str` field: must be present and a string. -/
def vReqStr : Option JVal → Except SchemaViolation String
  | some (JVal.jstr s) => Except.ok s
  | _ => Except.error SchemaViolation.invalid

/-- `Optional[str]` field with `default=None`. -/
def vOptStr : Option JVal → Except SchemaViolation (Option String)
  | none => Except.ok none
  | some JVal.jnull => Except.ok none
  | some (JVal.jstr s) => Except.ok (some s)
  | some _ => Except.error SchemaViolation.invalid

/-- `Optional[int]` field with `default=None`. -/
def vOptInt : Option JVal → Except SchemaViolation (Option Int)
  | none => Except.ok none
  | some JVal.jnull => Except.ok none
  | some (JVal.jint n) => Except.ok (some n)
  | some _ => Except.error SchemaViolation.invalid

/-- `Optional[bool]` field with `default=None`. -/
def vOptBool : Option JVal → Except SchemaViolation (Option Bool)
  | none => Except.ok none
  | some JVal.jnull => Except.ok none
  | some (JVal.jbool b) => Except.ok (some b)
  | some _ => Except.error SchemaViolation.invalid

/-- `Optional[float]` field with `default=None` (a JSON integer is a
valid float). -/
def vOptFloat : Option JVal → Except SchemaViolation (Option ℚ)
  | none => Except.ok none
  | some JVal.jnull => Except.ok none
  | some (JVal.jnum q) => Except.ok (some q)
  | some (JVal.jint n) => Except.ok (some (n : ℚ))
  | some _ => Except.error SchemaViolation.invalid

/-- `str` field with a default: an omitted key takes the default, a
present key must be a string (an explicit `null` is rejected). -/
def vStrD (d : String) : Option JVal → Except SchemaViolation String
  | none => Except.ok d
  | some (JVal.jstr s) => Except.ok s
  | some _ => Except.error SchemaViolation.invalid

/-- `int` field with a default: an omitted key takes the default, a
present key must be an integer (an explicit `null` is rejected). -/
def vIntD (d : Int) : Option JVal → Except SchemaViolation Int
  | none => Except.ok d
  | some (JVal.jint n) => Except.ok n
  | some _ => Except.error SchemaViolation.invalid

/-- `SoftwareContract.model_validate`: validation of a response object
against the pydantic model, field by field in declaration order. -/
def model_validate (r : RawContract) : Except SchemaViolation SoftwareContract :=
  bindE (vReqStr r.software_system_name) fun a1 =>
  bindE (vReqStr r.vendor_name_dba) fun a2 =>
  bindE (vReqStr r.vendor_name_legal) fun a3 =>
  bindE (vOptStr r.contract_start) fun a4 =>
  bindE (vOptStr r.contract_end) fun a5 =>
  bindE (vOptInt r.contract_period) fun a6 =>
  bindE (vOptBool r.auto_renewal) fun a7 =>
  bindE (vOptInt r.cancellation_notice_initial) fun a8 =>
  bindE (vOptInt r.cancellation_notice_ongoing) fun a9 =>
  bindE (vOptStr r.payment_terms) fun a10 =>
  bindE (vOptInt r.payment_delay) fun a11 =>
  bindE (vOptFloat r.payment_amount_setup) fun a12 =>
  bindE (vOptFloat r.payment_amount_per_terms) fun a13 =>
  bindE (vOptStr r.sla_uptime_guarantee) fun a14 =>
  bindE (vOptStr r.integration_clauses) fun a15 =>
  bindE (vStrD "DEALER" r.data_ownership) fun a16 =>
  bindE (vIntD (-1) r.license_count) fun a17 =>
  Except.ok
    { software_system_name := a1
      vendor_name_dba := a2
      vendor_name_legal := a3
      contract_start := a4
      contract_end := a5
      contract_period := a6
      auto_renewal := a7
      cancellation_notice_initial := a8
      cancellation_notice_ongoing := a9
      payment_terms := a10
      payment_delay := a11
      payment_amount_setup := a12
      payment_amount_per_terms := a13
      sla_uptime_guarantee := a14
      integration_clauses := a15
      data_ownership := a16
      license_count := a17 }

lemma bindE_ok {α β : Type} {x : Except SchemaViolation α}
    {f : α → Except SchemaViolation β} {c : β}
    (h : bindE x f = Except.ok c) : ∃ a, x = Except.ok a ∧ f a = Except.ok c := by
  cases x with
  | error e => simp [bindE] at h
  | ok a => exact ⟨a, rfl, h⟩

/-- A successfully validated record's defaulted fields come from the
corresponding field validators applied to the response object. -/
lemma model_validate_defaulted_fields (r : RawContract) (c : SoftwareContract)
    (h : model_validate r = Except.ok c) :
    vStrD "DEALER" r.data_ownership = Except.ok c.data_ownership ∧
    vIntD (-1) r.license_count = Except.ok c.license_count := by
  unfold model_validate at h
  obtain ⟨a1, h1, h⟩ := bindE_ok h
  obtain ⟨a2, h2, h⟩ := bindE_ok h
  obtain ⟨a3, h3, h⟩ := bindE_ok h
  obtain ⟨a4, h4, h⟩ := bindE_ok h
  obtain ⟨a5, h5, h⟩ := bindE_ok h
  obtain ⟨a6, h6, h⟩ := bindE_ok h
  obtain ⟨a7, h7, h⟩ := bindE_ok h
  obtain ⟨a8, h8, h⟩ := bindE_ok h
  obtain ⟨a9, h9, h⟩ := bindE_ok h
  obtain ⟨a10, h10, h⟩ := bindE_ok h
  obtain ⟨a11, h11, h⟩ := bindE_ok h
  obtain ⟨a12, h12, h⟩ := bindE_ok h
  obtain ⟨a13, h13, h⟩ := bindE_ok h
  obtain ⟨a14, h14, h⟩ := bindE_ok h
  obtain ⟨a15, h15, h⟩ := bindE_ok h
  obtain ⟨a16, h16, h⟩ := bindE_ok h
  obtain ⟨a17, h17, h⟩ := bindE_ok h
  cases h
  exact ⟨h16, h17⟩

/-- A part of the `contents` list sent to `generate_content`: prompt
text, PDF bytes (`types.Part.from_bytes(..., mime_type="application/pdf")`),
or the serialized expected output of a few-shot example
(`json.dumps(model_output, indent=2)`, kept symbolically as the object
it serializes). -/
inductive Part where
  | text (s : String)
  | pdf (data : List Nat)
  | jsonText (obj : List (String × JVal))
deriving DecidableEq, Repr

/-- A message emitted through the module logger, with its level. -/
inductive LogMsg where
  | info (s : String)
  | warning (s : String)
  | error (s : String)
deriving DecidableEq, Repr

/-- One entry of the few-shot examples manifest, a JSON object expected
to carry `pdf_path` and `expected_output`. `expected_output = none`
models an absent key (read via `example.get("expected_output", {})`,
defaulting to the empty object); `pdf_path = none` models an absent key
(read via `example["pdf_path"]`, which raises `KeyError`). -/
structure ManifestEntry where
  expected_output : Option (List (String × JVal)) := none
  pdf_path : Option String := none
deriving DecidableEq, Repr

/-- The state of the manifest file at the configured path: missing
(`os.path.exists` is false), present but not valid JSON (`json.load`
raises), or parsed into a list of entries. -/
inductive ManifestFile where
  | absent
  | unparsable
  | parsed (entries : List ManifestEntry)
deriving DecidableEq, Repr

/-- Log text of the info-level skip for vehicle-title examples. -/
def skip_vehicle_msg : String :=
  "Skipping vehicle title example - not applicable for software contracts"

/-- Log text of the warning for a missing example PDF. -/
def file_not_found_msg (p : String) : String :=
  "Example PDF file not found: " ++ p

/-- Log text of the catch-all warning (the source appends `str(e)`;
the exception text is immaterial to the claims and kept fixed). -/
def could_not_load_msg : String :=
  "Could not load few-shot examples"

/-- The fixed prompt placed before each few-shot example PDF. -/
def few_shot_prompt : String :=
  "Please extract the contract information from the following PDF"

/-- The keys of a JSON object. -/
def keys (obj : List (String × JVal)) : List String := obj.map Prod.fst

/-- Outcome of the loop body for one manifest entry: skipped with a log
line (`continue`), accepted with three parts appended, or an exception
raised inside the loop. -/
inductive StepOut where
  | skip (l : LogMsg)
  | accept (items : List Part)
  | fail
deriving DecidableEq, Repr

/-- The body of the `for example in examples` loop of
`create_few_shot_examples` (processor.py lines 110-133): first the
vehicle-title guard on `expected_output`, then the `pdf_path` lookup
(KeyError when missing), then the existence check on the PDF, then the
three parts are appended. -/
def process_example (fs : String → Option (List Nat)) (e : ManifestEntry) : StepOut :=
  let eo := e.expected_output.getD []
  if (keys eo).contains "vehicle_vin" then
    StepOut.skip (LogMsg.info skip_vehicle_msg)
  else
    match e.pdf_path with
    | none => StepOut.fail
    | some p =>
      match fs p with
      | none => StepOut.skip (LogMsg.warning (file_not_found_msg p))
      | some bytes =>
        StepOut.accept [Part.text few_shot_prompt, Part.pdf bytes, Part.jsonText eo]

/-- Result of running the example loop: the accumulated parts, the log
lines emitted, and whether an exception interrupted the loop (in which
case the parts accumulated before the exception survive, because the
list was created before the `try` block). -/
structure LoopOut where
  items : List Part
  logs : List LogMsg
  failed : Bool
deriving DecidableEq, Repr

/-- The example loop itself: on an exception the loop stops and the
entries after it contribute nothing. -/
def process_examples (fs : String → Option (List Nat)) :
    List ManifestEntry → LoopOut
  | [] => ⟨[], [], false⟩
  | e :: rest =>
    match process_example fs e with
    | StepOut.fail => ⟨[], [], true⟩
    | StepOut.skip l =>
      let r := process_examples fs rest
      ⟨r.items, l :: r.logs, r.failed⟩
    | StepOut.accept ps =>
      let r := process_examples fs rest
      ⟨ps ++ r.items, r.logs, r.failed⟩

/-- Python truthiness of the configured path:
`not self.few_shot_examples_path` is true for `None` and for the empty
string. -/
def path_falsy : Option String → Bool
  | none => true
  | some s => s = ""

/-- `create_few_shot_examples` (processor.py lines 91-137). Arguments:
the configured `few_shot_examples_path`, the state of the manifest file
at that path, and the filesystem holding the example PDFs. Returns the
parts list together with the emitted log lines; the catch-all
`except Exception` means the function itself never raises. -/
def create_few_shot_examples (few_shot_examples_path : Option String)
    (mf : ManifestFile) (fs : String → Option (List Nat)) :
    List Part × List LogMsg :=
  if path_falsy few_shot_examples_path then ([], [])
  else
    match mf with
    | ManifestFile.absent => ([], [])
    | ManifestFile.unparsable => ([], [LogMsg.warning could_not_load_msg])
    | ManifestFile.parsed es =>
      let r := process_examples fs es
      (r.items, r.logs ++ (if r.failed then [LogMsg.warning could_not_load_msg] else []))

/-- The fixed system instruction (processor.py lines 58-87, whitespace
normalized). -/
def system_prompt : String :=
  "You are an AI assistant specialized in extracting specific information from software contracts.\n" ++
  "Extract EXACTLY these fields from the contract. Pay close attention to the exact field names and data types.\n" ++
  "1. Software/System Name: The name of the product or service\n" ++
  "2. Vendor Name (DBA): Company name doing business as\n" ++
  "3. Vendor Name (Legal Entity): Legal entity name of the company\n" ++
  "4. Contract Start: Start date of the contract (format: YYYY-MM-DD)\n" ++
  "5. Contract End: End date of the contract (can be NULL if not specified)\n" ++
  "6. Contract Period: Duration in months (integer)\n" ++
  "7. Auto-renewal: Is the contract automatically renewed? (boolean: true/false)\n" ++
  "8. Cancellation Notice (Initial Term): Days required to cancel during initial term (integer)\n" ++
  "9. Cancellation Notice (Ongoing): Days required to cancel after initial term (integer)\n" ++
  "10. Payment Terms: Monthly, yearly, per user subscription, per license, or other\n" ++
  "11. Payment Amount Setup Fee: One-time setup fee amount (float)\n" ++
  "12. Payment Amount Per Terms: Recurring payment amount (float)\n" ++
  "13. SLA/Uptime Guarantee: Any service level agreement terms (can be NULL)\n" ++
  "14. Integration Clauses: Compatibility with DMS/CRM systems\n" ++
  "15. Data Ownership: Who owns the data (default to \"DEALER\" if not specified)\n" ++
  "16. License Count: Number of licenses/users/seats (use -1 for unlimited)\n" ++
  "IMPORTANT:\n" ++
  "- Use NULL for missing string values\n" ++
  "- Use null for missing date values\n" ++
  "- Use appropriate data types (string, integer, float, boolean)\n" ++
  "- For License Count, if unlimited or not specified, use -1\n" ++
  "- For Data Ownership, if not specified, default to \"DEALER\"\n" ++
  "- Extract dates in YYYY-MM-DD format\n" ++
  "- For payment amounts, extract numeric values only (no currency symbols)"

/-- The fixed closing instruction (processor.py line 89). -/
def main_prompt : String :=
  "Please extract the contract information from the attached PDF document according to the specified fields."

/-- Exceptions of the embedded pipeline: a provider/transport failure
raised by `generate_content`, a missing file at `open`, or an I/O error
while writing the staged temporary file. -/
inductive PyErr where
  | providerError (msg : String)
  | fileNotFound (path : String)
  | ioError (msg : String)
deriving DecidableEq, Repr

/-- The SDK response object. With
`response_schema = SoftwareContract` the SDK validates the returned
JSON against the schema and fills `parsed`; `parsed` is `none` when the
payload does not validate (the SDK's `parsed` attribute is Optional). -/
structure GenerateContentResponse where
  parsed : Option SoftwareContract
deriving DecidableEq, Repr

/-- The SDK's structured-output parsing of a provider payload, modelled
through `model_validate`. -/
def response_of (raw : RawContract) : GenerateContentResponse :=
  { parsed := (model_validate raw).toOption }

/-- `extract_data_from_pdf` (processor.py lines 139-175): builds the
few-shot context, sends system prompt, few-shot parts, the target PDF
bytes and the closing instruction to `generate_content`, and returns
`response.parsed` unchecked. The `except` block logs and re-raises, so
an exception from the provider propagates unchanged. -/
def extract_data_from_pdf
    (generate_content : List Part → Except PyErr GenerateContentResponse)
    (few_shot_examples_path : Option String) (mf : ManifestFile)
    (fs : String → Option (List Nat)) (pdf_data : List Nat) :
    Except PyErr (Option SoftwareContract) :=
  let few_shot := (create_few_shot_examples few_shot_examples_path mf fs).1
  match generate_content
      (Part.text system_prompt :: (few_shot ++ [Part.pdf pdf_data, Part.text main_prompt])) with
  | Except.error e => Except.error e
  | Except.ok resp => Except.ok resp.parsed

/-- `extract_data_from_file` (processor.py lines 177-190): opens the
path on the given filesystem (raising when it does not exist), reads
the bytes and delegates to `extract_data_from_pdf`. `file_fs` is the
directory holding the requested file, kept separate from the few-shot
example filesystem `fs`. -/
def extract_data_from_file
    (generate_content : List Part → Except PyErr GenerateContentResponse)
    (few_shot_examples_path : Option String) (mf : ManifestFile)
    (fs : String → Option (List Nat))
    (file_fs : String → Option (List Nat)) (path : String) :
    Except PyErr (Option SoftwareContract) :=
  match file_fs path with
  | none => Except.error (PyErr.fileNotFound path)
  | some b => extract_data_from_pdf generate_content few_shot_examples_path mf fs b

/-- The fresh name produced by
`tempfile.NamedTemporaryFile(delete=False, suffix=".pdf")`. -/
def temp_pdf_path : String := "tmp_upload.pdf"

/-- Outcome of `extract_data_from_uploaded_file`: the returned value or
raised exception, and whether the staged temporary file was deleted by
the time the call terminated. -/
structure UploadResult where
  outcome : Except PyErr (Option SoftwareContract)
  temp_file_deleted : Bool
deriving Repr

/-- `extract_data_from_uploaded_file` (processor.py lines 192-211): the
temp file is created with `delete=False` and written inside the `with`
block, BEFORE the `try`/`finally` that guards extraction; `write_fails`
models an exception raised while writing the uploaded bytes (the
`with` block then closes the file without deleting it and `os.unlink`
is never reached). On the success path the temp filesystem maps the
fresh temp path to the uploaded bytes, `extract_data_from_file` is
called on it, and the `finally` block deletes the file on both the
normal and the exceptional exit. -/
def extract_data_from_uploaded_file
    (generate_content : List Part → Except PyErr GenerateContentResponse)
    (few_shot_examples_path : Option String) (mf : ManifestFile)
    (fs : String → Option (List Nat)) (uploaded : List Nat)
    (write_fails : Bool) : UploadResult :=
  if write_fails then
    { outcome := Except.error (PyErr.ioError "temp file write failed")
      temp_file_deleted := false }
  else
    { outcome := extract_data_from_file generate_content few_shot_examples_path mf fs
        (fun p => if p = temp_pdf_path then some uploaded else none) temp_pdf_path
      temp_file_deleted := true }

/-- Python truthiness rendering of a required string field
(`value or "NULL"` in streamlit_app.py): the empty string renders as
"NULL". -/
def orNULL (s : String) : String := if s = "" then "NULL" else s

/-- Truthiness rendering of an optional string field
(`value if value else "NULL"`): absent and empty both render "NULL". -/
def optStrNULL : Option String → String
  | none => "NULL"
  | some s => orNULL s

/-- The decimal digit character of `n % 10`. -/
def digitChar (n : Nat) : Char := Char.ofNat (48 + n % 10)

/-- Two-digit zero-padded rendering of `k % 100` (the fractional part
of a `:.2f` format). -/
def pad2 (k : Nat) : String := String.mk [digitChar (k / 10), digitChar k]

/-- Round-half-even of `q * 100` (the number of cents), as Python's
float formatting rounds; computed on the reduced fraction with integer
arithmetic (`q.den` is positive, `Int.fdiv` is floor division). -/
def roundHalfEvenCents (q : ℚ) : Int :=
  let N := q.num * 100
  let d := (q.den : Int)
  let f := Int.fdiv N d
  let r := N - d * f
  if 2 * r < d then f
  else if d < 2 * r then f + 1
  else if f % 2 = 0 then f else f + 1

/-- Python's `f"{v:.2f}"`: the value rounded to two decimals, rendered
with a dot and exactly two fractional digits. -/
def format_2f (q : ℚ) : String :=
  let n := roundHalfEvenCents q
  ((if n < 0 then "-" else "") ++ toString (n.natAbs / 100)) ++ "." ++ pad2 (n.natAbs % 100)

/-- `display_contract_data` (streamlit_app.py lines 97-123): the
`data_dict` of seventeen field/value rows, with cell values rendered to
the strings the table shows (Python leaves `payment_delay` as a bare
int when truthy; the table renders it in decimal, modelled by
`toString`). -/
def display_contract_data (c : SoftwareContract) : List (String × String) :=
  [("Software/System Name", orNULL c.software_system_name),
   ("Vendor Name (DOING BUSINESS AS)", orNULL c.vendor_name_dba),
   ("Vendor Name (LEGAL ENTITY)", orNULL c.vendor_name_legal),
   ("Contract Start", optStrNULL c.contract_start),
   ("Contract End", optStrNULL c.contract_end),
   ("Contract Period",
     match c.contract_period with
     | some n => toString n ++ " months"
     | none => "NULL"),
   ("Auto-renewal",
     match c.auto_renewal with
     | some true => "TRUE"
     | some false => "FALSE"
     | none => "NULL"),
   ("Cancellation Notice (INITIAL TERM, DAYS)",
     match c.cancellation_notice_initial with
     | some n => toString n
     | none => "NULL"),
   ("Cancellation Notice (ONGOING, DAYS)",
     match c.cancellation_notice_ongoing with
     | some n => toString n
     | none => "NULL"),
   ("Payment Terms", optStrNULL c.payment_terms),
   ("Payment Delay",
     match c.payment_delay with
     | some n => if n = 0 then "NULL" else toString n
     | none => "NULL"),
   ("Payment amount, setup fee",
     match c.payment_amount_setup with
     | some v => "$" ++ format_2f v
     | none => "NULL"),
   ("Payment amount per terms",
     match c.payment_amount_per_terms with
     | some v => "$" ++ format_2f v
     | none => "NULL"),
   ("SLA/Uptime Guarantee", optStrNULL c.sla_uptime_guarantee),
   ("Integration Clauses", optStrNULL c.integration_clauses),
   ("Data Ownership", if c.data_ownership = "" then "DEALER" else c.data_ownership),
   ("License Count", if c.license_count = -1 then "Unlimited" else toString c.license_count)]

/-! Concrete fixtures used by witnesses and counterexamples. -/

/-- A model response supplying exactly the three required fields. -/
def raw_all_required : RawContract :=
  { software_system_name := some (JVal.jstr "DMS Pro")
    vendor_name_dba := some (JVal.jstr "Acme")
    vendor_name_legal := some (JVal.jstr "Acme LLC") }

/-- The record `raw_all_required` validates to: every optional field
absent, `data_ownership` defaulted, `license_count` defaulted. -/
def rec_all_required : SoftwareContract :=
  ⟨"DMS Pro", "Acme", "Acme LLC", none, none, none, none, none, none,
   none, none, none, none, none, none, "DEALER", -1⟩

/-- Example-PDF filesystem holding two PDFs. -/
def example_fs : String → Option (List Nat) := fun p =>
  if p = "examples/invoice.pdf" then some [37, 80, 68, 70]
  else if p = "examples/contract.pdf" then some [37, 80, 68, 70, 45]
  else none

/-- A manifest entry whose expected output belongs to a foreign schema
other than vehicle titles, with an existing PDF. -/
def foreign_entry : ManifestEntry :=
  { expected_output := some [("invoice_id", JVal.jstr "INV-7"), ("total", JVal.jnum 10)]
    pdf_path := some "examples/invoice.pdf" }

/-- A vehicle-title manifest entry (the guard the source implements). -/
def vehicle_entry : ManifestEntry :=
  { expected_output := some [("vehicle_vin", JVal.jstr "1HGCM82633A004352")]
    pdf_path := some "examples/title.pdf" }

/-- A conforming manifest entry with an existing PDF. -/
def good_entry : ManifestEntry :=
  { expected_output := some [("software_system_name", JVal.jstr "DMS Pro")]
    pdf_path := some "examples/contract.pdf" }

/-- A manifest entry lacking the `pdf_path` key (its access raises). -/
def missing_path_entry : ManifestEntry :=
  { expected_output := some [("software_system_name", JVal.jstr "X")]
    pdf_path := none }

/-- A manifest entry whose referenced PDF does not exist. -/
def missing_pdf_entry : ManifestEntry :=
  { expected_output := some [("software_system_name", JVal.jstr "Y")]
    pdf_path := some "examples/ghost.pdf" }

/-! Claim C1. -/

/-- C1 evaluation at the failing input: when the provider call succeeds
transport-wise but the payload does not validate against the schema
(`response.parsed` is `None`) — here additionally with zero-length PDF
bytes — `extract_data_from_pdf` returns that `None` as a success value
instead of failing with an extraction error. This refutes the claim
that the call always fails with an ExtractionError in these situations
and never returns a non-record value. -/
theorem c1_extract_returns_unparsed_none :
    extract_data_from_pdf (fun _ => Except.ok { parsed := none }) none
      ManifestFile.absent (fun _ => none) [] = Except.ok none := rfl

/-! Claim C2. -/

/-- C2 counterexample: a response explicitly supplying
`data_ownership = "DEALER"` validates to a record whose
`data_ownership` equals "DEALER" even though the key was not omitted,
so the claimed "if and only if" is false. -/
theorem c2_cex_explicit_dealer_breaks_iff :
    ¬ (∀ (raw : RawContract) (rec : SoftwareContract),
        model_validate raw = Except.ok rec →
        ((rec.data_ownership = "DEALER" ↔ raw.data_ownership = none) ∧
         (rec.license_count = -1 ↔ raw.license_count = none))) := by
  intro hclaim
  have h := hclaim
    { software_system_name := some (JVal.jstr "A")
      vendor_name_dba := some (JVal.jstr "B")
      vendor_name_legal := some (JVal.jstr "C")
      data_ownership := some (JVal.jstr "DEALER") }
    ⟨"A", "B", "C", none, none, none, none, none, none, none, none,
     none, none, none, none, "DEALER", -1⟩
    rfl
  exact Option.noConfusion (h.1.mp rfl)

/-- C2 (amended): for every response that validates, `data_ownership`
is defaulted to "DEALER" when its key was omitted and carried unchanged
when present, `license_count` is defaulted to -1 when omitted and
carried unchanged when present, and `extract_data_from_pdf` returns the
validated record. (The original "if and only if" fails when the
response explicitly supplies the default value.) -/
theorem c2_extract_defaults (raw : RawContract) (rec : SoftwareContract)
    (h : model_validate raw = Except.ok rec) :
    (raw.data_ownership = none → rec.data_ownership = "DEALER") ∧
    (∀ s, raw.data_ownership = some (JVal.jstr s) → rec.data_ownership = s) ∧
    (raw.license_count = none → rec.license_count = -1) ∧
    (∀ n, raw.license_count = some (JVal.jint n) → rec.license_count = n) ∧
    extract_data_from_pdf (fun _ => Except.ok (response_of raw)) none
      ManifestFile.absent (fun _ => none) [] = Except.ok (some rec) := by
  obtain ⟨hd, hl⟩ := model_validate_defaulted_fields raw rec h
  refine ⟨?_, ?_, ?_, ?_, ?_⟩
  · intro h0; rw [h0] at hd; simp only [vStrD] at hd
    exact (Except.ok.inj hd).symm
  · intro s hs; rw [hs] at hd; simp only [vStrD] at hd
    exact (Except.ok.inj hd).symm
  · intro h0; rw [h0] at hl; simp only [vIntD] at hl
    exact (Except.ok.inj hl).symm
  · intro n hn; rw [hn] at hl; simp only [vIntD] at hl
    exact (Except.ok.inj hl).symm
  · simp [extract_data_from_pdf, response_of, h, Except.toOption]

/-- Witness for C2's theorem at a concrete response omitting both
defaulted keys. -/
theorem c2_extract_defaults_witness :
    rec_all_required.data_ownership = "DEALER" ∧
    rec_all_required.license_count = -1 ∧
    extract_data_from_pdf (fun _ => Except.ok (response_of raw_all_required)) none
      ManifestFile.absent (fun _ => none) [] = Except.ok (some rec_all_required) := by
  have h := c2_extract_defaults raw_all_required rec_all_required rfl
  exact ⟨h.1 rfl, h.2.2.1 rfl, h.2.2.2.2⟩

/-! Claim C6. -/

/-- C6 counterexample: a response explicitly supplying an empty string
for `data_ownership` validates successfully, producing a record whose
`data_ownership` is the empty string — so records produced by the
system do not always carry a non-empty `data_ownership`. -/
theorem c6_cex_empty_data_ownership_validates :
    model_validate
      { software_system_name := some (JVal.jstr "A")
        vendor_name_dba := some (JVal.jstr "B")
        vendor_name_legal := some (JVal.jstr "C")
        data_ownership := some (JVal.jstr "") } =
      Except.ok ⟨"A", "B", "C", none, none, none, none, none, none, none,
        none, none, none, none, none, "", -1⟩ ∧
    (⟨"A", "B", "C", none, none, none, none, none, none, none,
        none, none, none, none, none, "", -1⟩ : SoftwareContract).data_ownership = "" :=
  ⟨rfl, rfl⟩

/-- C6 (amended): in every validated record `license_count` is never
absent — omission defaults it to -1 and an explicit JSON `null` is
rejected by validation — and `data_ownership` defaults to "DEALER" when
omitted but may be the empty string when the response supplies one
explicitly; the display layer substitutes "DEALER" for an empty
`data_ownership`, so the rendered Data Ownership value is never the
empty string. -/
theorem c6_license_never_null_ownership_fallback (raw : RawContract)
    (rec : SoftwareContract) (h : model_validate raw = Except.ok rec) :
    (raw.license_count = none → rec.license_count = -1) ∧
    raw.license_count ≠ some JVal.jnull ∧
    (raw.data_ownership = none → rec.data_ownership = "DEALER") ∧
    ∀ v, (display_contract_data rec).get? 15 = some ("Data Ownership", v) → v ≠ "" := by
  obtain ⟨hd, hl⟩ := model_validate_defaulted_fields raw rec h
  refine ⟨?_, ?_, ?_, ?_⟩
  · intro h0; rw [h0] at hl; simp only [vIntD] at hl
    exact (Except.ok.inj hl).symm
  · intro h0; rw [h0] at hl; simp only [vIntD] at hl
    exact Except.noConfusion hl
  · intro h0; rw [h0] at hd; simp only [vStrD] at hd
    exact (Except.ok.inj hd).symm
  · intro v hv
    have e : (display_contract_data rec).get? 15 =
        some ("Data Ownership",
          if rec.data_ownership = "" then "DEALER" else rec.data_ownership) := rfl
    rw [e] at hv
    have hv2 : (if rec.data_ownership = "" then "DEALER" else rec.data_ownership) = v := by
      have := Option.some.inj hv
      exact congrArg Prod.snd this
    rw [← hv2]
    by_cases hc : rec.data_ownership = ""
    · simp [hc]
    · simp [hc]

/-- Witness for C6's theorem at a concrete validated record. -/
theorem c6_license_never_null_witness :
    rec_all_required.license_count = -1 ∧
    ∀ v, (display_contract_data rec_all_required).get? 15 =
        some ("Data Ownership", v) → v ≠ "" := by
  have h := c6_license_never_null_ownership_fallback raw_all_required rec_all_required rfl
  exact ⟨h.1 rfl, h.2.2.2⟩

/-! Claim C7. -/

/-- C7 counterexample: when the write of the uploaded bytes into the
temp file raises (after `NamedTemporaryFile(delete=False)` created the
file, before the `try`/`finally`), the call terminates with the staged
temporary file still in existence. -/
theorem c7_cex_write_failure_leaks_temp_file :
    (extract_data_from_uploaded_file (fun _ => Except.ok { parsed := none }) none
        ManifestFile.absent (fun _ => none) [0] true).temp_file_deleted = false := rfl

/-- C7 (amended): once the uploaded bytes have been staged
successfully, the temporary file is deleted on every exit path — on
normal return and when extraction raises; only an exception during the
staging write itself (before the guarded region) leaks the file. -/
theorem c7_temp_file_deleted_after_staging
    (generate_content : List Part → Except PyErr GenerateContentResponse)
    (few_shot_examples_path : Option String) (mf : ManifestFile)
    (fs : String → Option (List Nat)) (uploaded : List Nat) :
    (extract_data_from_uploaded_file generate_content few_shot_examples_path mf fs
        uploaded false).temp_file_deleted = true := rfl

/-! Claim C9. -/

/-- C9: staging the uploaded bytes through the temporary file and
re-reading them via `extract_data_from_file` preserves the bytes, so
`extract_data_from_uploaded_file` returns exactly what
`extract_data_from_pdf` returns on the uploaded file's byte content
(raised exceptions included). -/
theorem c9_uploaded_file_equals_direct_extract
    (generate_content : List Part → Except PyErr GenerateContentResponse)
    (few_shot_examples_path : Option String) (mf : ManifestFile)
    (fs : String → Option (List Nat)) (uploaded : List Nat) :
    (extract_data_from_uploaded_file generate_content few_shot_examples_path mf fs
        uploaded false).outcome =
      extract_data_from_pdf generate_content few_shot_examples_path mf fs uploaded := by
  simp [extract_data_from_uploaded_file, extract_data_from_file]

/-! Claim C3. -/

/-- C3 counterexample: a manifest entry whose expected output carries a
key foreign to the contract schema (an invoice identifier) but not the
key "vehicle_vin" is NOT excluded: `create_few_shot_examples` returns
its three parts. Only the literal "vehicle_vin" guard exists. -/
theorem c3_cex_foreign_key_entry_not_excluded :
    (create_few_shot_examples (some "examples/manifest.json")
        (ManifestFile.parsed [foreign_entry]) example_fs).1 =
      [Part.text few_shot_prompt, Part.pdf [37, 80, 68, 70],
       Part.jsonText [("invoice_id", JVal.jstr "INV-7"), ("total", JVal.jnum 10)]] ∧
    [Part.text few_shot_prompt, Part.pdf [37, 80, 68, 70],
       Part.jsonText [("invoice_id", JVal.jstr "INV-7"), ("total", JVal.jnum 10)]] ≠
      ([] : List Part) := by
  exact ⟨rfl, by simp⟩

/-- C3 (amended): `create_few_shot_examples` never raises on such
entries, but it excludes exactly the entries whose expected output
contains the key "vehicle_vin" (logging the skip); an entry with any
other foreign key is not filtered and, when its PDF exists, contributes
its three parts to the returned sequence. -/
theorem c3_only_vehicle_vin_filtered
    (mpath : String) (hmp : mpath ≠ "") (fs : String → Option (List Nat))
    (eo : List (String × JVal)) (p : String) (rest : List ManifestEntry) :
    ((keys eo).contains "vehicle_vin" = true →
      create_few_shot_examples (some mpath)
          (ManifestFile.parsed
            ({ expected_output := some eo, pdf_path := some p } :: rest)) fs =
        ((create_few_shot_examples (some mpath) (ManifestFile.parsed rest) fs).1,
         LogMsg.info skip_vehicle_msg ::
           (create_few_shot_examples (some mpath) (ManifestFile.parsed rest) fs).2)) ∧
    (∀ bytes, (keys eo).contains "vehicle_vin" = false → fs p = some bytes →
      create_few_shot_examples (some mpath)
          (ManifestFile.parsed
            ({ expected_output := some eo, pdf_path := some p } :: rest)) fs =
        ([Part.text few_shot_prompt, Part.pdf bytes, Part.jsonText eo] ++
           (create_few_shot_examples (some mpath) (ManifestFile.parsed rest) fs).1,
         (create_few_shot_examples (some mpath) (ManifestFile.parsed rest) fs).2)) := by
  constructor
  · intro hvin
    simp at hvin
    simp [create_few_shot_examples, path_falsy, hmp, process_examples,
      process_example, hvin]
  · intro bytes hvin hfs
    simp at hvin
    simp [create_few_shot_examples, path_falsy, hmp, process_examples,
      process_example, hvin, hfs]

/-- Witness for C3's theorem: the vehicle-title entry is skipped with
an info log, while the foreign invoice entry is included. -/
theorem c3_only_vehicle_vin_filtered_witness :
    create_few_shot_examples (some "m.json")
        (ManifestFile.parsed [vehicle_entry]) example_fs =
      ([], [LogMsg.info skip_vehicle_msg]) ∧
    create_few_shot_examples (some "m.json")
        (ManifestFile.parsed [foreign_entry]) example_fs =
      ([Part.text few_shot_prompt, Part.pdf [37, 80, 68, 70],
        Part.jsonText [("invoice_id", JVal.jstr "INV-7"), ("total", JVal.jnum 10)]],
       []) := by
  have h1 := (c3_only_vehicle_vin_filtered "m.json" (by decide) example_fs
      [("vehicle_vin", JVal.jstr "1HGCM82633A004352")] "examples/title.pdf" []).1
      (by decide)
  have h2 := (c3_only_vehicle_vin_filtered "m.json" (by decide) example_fs
      [("invoice_id", JVal.jstr "INV-7"), ("total", JVal.jnum 10)]
      "examples/invoice.pdf" []).2 [37, 80, 68, 70] (by decide) rfl
  exact ⟨h1, h2⟩

/-! Claim C4. -/

/-- C4 counterexample: a manifest whose second entry lacks the
`pdf_path` key raises mid-loop; the exception is caught, but the result
is the partial sequence accumulated from the first entry — non-empty —
not the empty sequence the claim requires for a manifest
reading/parsing failure. -/
theorem c4_cex_midloop_failure_keeps_accumulated :
    (create_few_shot_examples (some "m.json")
        (ManifestFile.parsed [good_entry, missing_path_entry]) example_fs).1 ≠ [] ∧
    (create_few_shot_examples (some "m.json")
        (ManifestFile.parsed [good_entry, missing_path_entry]) example_fs).2 =
      [LogMsg.warning could_not_load_msg] := by
  exact ⟨by decide, rfl⟩

/-- C4 (amended): `create_few_shot_examples` never raises. It returns
an empty sequence when no manifest path is configured or the manifest
file does not exist, and a failure opening or JSON-parsing the manifest
file (before any entry is processed) also degrades to an empty
sequence with a logged warning. A failure raised while processing a
manifest entry, however, is merely caught: the call returns the —
possibly non-empty — parts accumulated from the entries processed
before it, with a logged warning. -/
theorem c4_fewshot_failures_absorbed (fs : String → Option (List Nat)) :
    (∀ mf, create_few_shot_examples none mf fs = ([], [])) ∧
    (∀ p, create_few_shot_examples (some p) ManifestFile.absent fs = ([], [])) ∧
    (∀ p, p ≠ "" →
      create_few_shot_examples (some p) ManifestFile.unparsable fs =
        ([], [LogMsg.warning could_not_load_msg])) ∧
    (∀ p es, p ≠ "" → (process_examples fs es).failed = true →
      create_few_shot_examples (some p) (ManifestFile.parsed es) fs =
        ((process_examples fs es).items,
         (process_examples fs es).logs ++ [LogMsg.warning could_not_load_msg])) := by
  refine ⟨?_, ?_, ?_, ?_⟩
  · intro mf; simp [create_few_shot_examples, path_falsy]
  · intro p
    by_cases hp : p = ""
    · simp [create_few_shot_examples, path_falsy, hp]
    · simp [create_few_shot_examples, path_falsy, hp]
  · intro p hp
    simp [create_few_shot_examples, path_falsy, hp]
  · intro p es hp hfail
    simp [create_few_shot_examples, path_falsy, hp, hfail]

/-- Witness for C4's theorem at concrete configurations, including a
manifest whose single entry lacks `pdf_path` (loop failure before any
accumulation, yielding the empty sequence with the warning). -/
theorem c4_fewshot_failures_absorbed_witness :
    create_few_shot_examples none (ManifestFile.parsed [good_entry]) example_fs =
      ([], []) ∧
    create_few_shot_examples (some "m.json") ManifestFile.absent example_fs =
      ([], []) ∧
    create_few_shot_examples (some "m.json") ManifestFile.unparsable example_fs =
      ([], [LogMsg.warning could_not_load_msg]) ∧
    create_few_shot_examples (some "m.json")
        (ManifestFile.parsed [missing_path_entry]) example_fs =
      ([], [LogMsg.warning could_not_load_msg]) := by
  have h := c4_fewshot_failures_absorbed example_fs
  refine ⟨h.1 (ManifestFile.parsed [good_entry]), h.2.1 "m.json",
    h.2.2.1 "m.json" (by decide), ?_⟩
  have h4 := h.2.2.2 "m.json" [missing_path_entry] (by decide) rfl
  exact h4

/-! Claim C8. -/

/-- C8: a manifest entry referencing a PDF path that does not exist is
excluded from the returned sequence with a logged warning and without
raising, and the remaining entries' contributions are unaffected: the
call on `entry :: rest` returns exactly the parts of `rest`, with the
file-not-found warning prepended to the logs of `rest`. -/
theorem c8_missing_pdf_entry_skipped_with_warning
    (mpath : String) (hmp : mpath ≠ "") (fs : String → Option (List Nat))
    (eo : List (String × JVal)) (hvin : (keys eo).contains "vehicle_vin" = false)
    (p : String) (hfs : fs p = none) (rest : List ManifestEntry) :
    create_few_shot_examples (some mpath)
        (ManifestFile.parsed
          ({ expected_output := some eo, pdf_path := some p } :: rest)) fs =
      ((create_few_shot_examples (some mpath) (ManifestFile.parsed rest) fs).1,
       LogMsg.warning (file_not_found_msg p) ::
         (create_few_shot_examples (some mpath) (ManifestFile.parsed rest) fs).2) := by
  simp at hvin
  simp [create_few_shot_examples, path_falsy, hmp, process_examples,
    process_example, hvin, hfs]

/-- Witness for C8's theorem: the ghost-PDF entry is dropped with a
warning while the well-formed entry after it still contributes. -/
theorem c8_missing_pdf_entry_skipped_witness :
    create_few_shot_examples (some "m.json")
        (ManifestFile.parsed [missing_pdf_entry, good_entry]) example_fs =
      ([Part.text few_shot_prompt, Part.pdf [37, 80, 68, 70, 45],
        Part.jsonText [("software_system_name", JVal.jstr "DMS Pro")]],
       [LogMsg.warning (file_not_found_msg "examples/ghost.pdf")]) := by
  have h := c8_missing_pdf_entry_skipped_with_warning "m.json" (by decide)
    example_fs [("software_system_name", JVal.jstr "Y")] (by decide)
    "examples/ghost.pdf" rfl [good_entry]
  exact h

/-! Claim C5. -/

/-- C5: a record with every optional field absent renders with the
"NULL" placeholder in every absent optional field's row and with
"Unlimited" for `license_count = -1`; and a present currency field
renders as a dollar sign followed by the value formatted with a dot
and exactly two fractional digits. -/
theorem c5_all_absent_renders_null_and_unlimited (c : SoftwareContract)
    (h1 : c.contract_start = none) (h2 : c.contract_end = none)
    (h3 : c.contract_period = none) (h4 : c.auto_renewal = none)
    (h5 : c.cancellation_notice_initial = none)
    (h6 : c.cancellation_notice_ongoing = none)
    (h7 : c.payment_terms = none) (h8 : c.payment_delay = none)
    (h9 : c.payment_amount_setup = none)
    (h10 : c.payment_amount_per_terms = none)
    (h11 : c.sla_uptime_guarantee = none)
    (h12 : c.integration_clauses = none)
    (hl : c.license_count = -1) :
    display_contract_data c =
      [("Software/System Name", orNULL c.software_system_name),
       ("Vendor Name (DOING BUSINESS AS)", orNULL c.vendor_name_dba),
       ("Vendor Name (LEGAL ENTITY)", orNULL c.vendor_name_legal),
       ("Contract Start", "NULL"),
       ("Contract End", "NULL"),
       ("Contract Period", "NULL"),
       ("Auto-renewal", "NULL"),
       ("Cancellation Notice (INITIAL TERM, DAYS)", "NULL"),
       ("Cancellation Notice (ONGOING, DAYS)", "NULL"),
       ("Payment Terms", "NULL"),
       ("Payment Delay", "NULL"),
       ("Payment amount, setup fee", "NULL"),
       ("Payment amount per terms", "NULL"),
       ("SLA/Uptime Guarantee", "NULL"),
       ("Integration Clauses", "NULL"),
       ("Data Ownership", if c.data_ownership = "" then "DEALER" else c.data_ownership),
       ("License Count", "Unlimited")] ∧
    (∀ q : ℚ,
      (display_contract_data { c with payment_amount_setup := some q }).get? 11 =
        some ("Payment amount, setup fee", "$" ++ format_2f q) ∧
      (display_contract_data { c with payment_amount_per_terms := some q }).get? 12 =
        some ("Payment amount per terms", "$" ++ format_2f q) ∧
      ∃ a b, format_2f q = a ++ "." ++ b ∧ b.length = 2) := by
  constructor
  · simp [display_contract_data, h1, h2, h3, h4, h5, h6, h7, h8, h9, h10,
      h11, h12, hl, optStrNULL]
  · intro q
    refine ⟨rfl, rfl, ?_⟩
    exact ⟨(if roundHalfEvenCents q < 0 then "-" else "") ++
        toString ((roundHalfEvenCents q).natAbs / 100),
      pad2 ((roundHalfEvenCents q).natAbs % 100), rfl, rfl⟩

/-- Witness for C5's theorem at a concrete all-absent record and a
concrete currency value. -/
theorem c5_all_absent_witness :
    display_contract_data rec_all_required =
      [("Software/System Name", "DMS Pro"),
       ("Vendor Name (DOING BUSINESS AS)", "Acme"),
       ("Vendor Name (LEGAL ENTITY)", "Acme LLC"),
       ("Contract Start", "NULL"),
       ("Contract End", "NULL"),
       ("Contract Period", "NULL"),
       ("Auto-renewal", "NULL"),
       ("Cancellation Notice (INITIAL TERM, DAYS)", "NULL"),
       ("Cancellation Notice (ONGOING, DAYS)", "NULL"),
       ("Payment Terms", "NULL"),
       ("Payment Delay", "NULL"),
       ("Payment amount, setup fee", "NULL"),
       ("Payment amount per terms", "NULL"),
       ("SLA/Uptime Guarantee", "NULL"),
       ("Integration Clauses", "NULL"),
       ("Data Ownership", "DEALER"),
       ("License Count", "Unlimited")] ∧
    (display_contract_data
        { rec_all_required with payment_amount_setup := some (mkRat 3 2) }).get? 11 =
      some ("Payment amount, setup fee", "$" ++ format_2f (mkRat 3 2)) := by
  have h := c5_all_absent_renders_null_and_unlimited rec_all_required
    rfl rfl rfl rfl rfl rfl rfl rfl rfl rfl rfl rfl rfl
  exact ⟨by simpa using h.1, (h.2 (mkRat 3 2)).1⟩

/-! Claim C10. -/

/-- C10 counterexample: a present `contract_period` of 0 is rendered
"0 months", not "0", so the claim's statement that the is-not-None
integer and float fields render 0 as the string "0" is false as
written. -/
theorem c10_cex_zero_period_renders_zero_months :
    (display_contract_data
        { rec_all_required with contract_period := some 0 }).get? 5 =
      some ("Contract Period", "0 months") ∧ ("0 months" : String) ≠ "0" := by
  exact ⟨rfl, by decide⟩

/-- C10 (amended): `payment_delay` and the truthiness-checked string
fields render a present falsy value (0 or the empty string) as the
"NULL" placeholder, indistinguishable from an absent value; the other
optional integer and float fields use an is-not-None check and render a
present 0 as a zero value — "0" for the cancellation notices, but
"0 months" for the contract period and "$0.00" for the payment
amounts. -/
theorem c10_truthiness_rendering (c : SoftwareContract) :
    (c.software_system_name = "" →
      (display_contract_data c).get? 0 = some ("Software/System Name", "NULL")) ∧
    (c.vendor_name_dba = "" →
      (display_contract_data c).get? 1 = some ("Vendor Name (DOING BUSINESS AS)", "NULL")) ∧
    (c.vendor_name_legal = "" →
      (display_contract_data c).get? 2 = some ("Vendor Name (LEGAL ENTITY)", "NULL")) ∧
    (c.contract_start = some "" →
      (display_contract_data c).get? 3 = some ("Contract Start", "NULL")) ∧
    (c.contract_end = some "" →
      (display_contract_data c).get? 4 = some ("Contract End", "NULL")) ∧
    (c.payment_terms = some "" →
      (display_contract_data c).get? 9 = some ("Payment Terms", "NULL")) ∧
    (c.payment_delay = some 0 →
      (display_contract_data c).get? 10 = some ("Payment Delay", "NULL")) ∧
    (c.sla_uptime_guarantee = some "" →
      (display_contract_data c).get? 13 = some ("SLA/Uptime Guarantee", "NULL")) ∧
    (c.integration_clauses = some "" →
      (display_contract_data c).get? 14 = some ("Integration Clauses", "NULL")) ∧
    (∀ n, c.cancellation_notice_initial = some n →
      (display_contract_data c).get? 7 =
        some ("Cancellation Notice (INITIAL TERM, DAYS)", toString n)) ∧
    (∀ n, c.cancellation_notice_ongoing = some n →
      (display_contract_data c).get? 8 =
        some ("Cancellation Notice (ONGOING, DAYS)", toString n)) ∧
    (c.contract_period = some 0 →
      (display_contract_data c).get? 5 = some ("Contract Period", "0 months")) ∧
    (c.payment_amount_setup = some 0 →
      (display_contract_data c).get? 11 = some ("Payment amount, setup fee", "$0.00")) ∧
    (c.payment_amount_per_terms = some 0 →
      (display_contract_data c).get? 12 = some ("Payment amount per terms", "$0.00")) := by
  have e0 : (display_contract_data c).get? 0 =
      some ("Software/System Name", orNULL c.software_system_name) := rfl
  have e1 : (display_contract_data c).get? 1 =
      some ("Vendor Name (DOING BUSINESS AS)", orNULL c.vendor_name_dba) := rfl
  have e2 : (display_contract_data c).get? 2 =
      some ("Vendor Name (LEGAL ENTITY)", orNULL c.vendor_name_legal) := rfl
  have e3 : (display_contract_data c).get? 3 =
      some ("Contract Start", optStrNULL c.contract_start) := rfl
  have e4 : (display_contract_data c).get? 4 =
      some ("Contract End", optStrNULL c.contract_end) := rfl
  have e9 : (display_contract_data c).get? 9 =
      some ("Payment Terms", optStrNULL c.payment_terms) := rfl
  have e13 : (display_contract_data c).get? 13 =
      some ("SLA/Uptime Guarantee", optStrNULL c.sla_uptime_guarantee) := rfl
  have e14 : (display_contract_data c).get? 14 =
      some ("Integration Clauses", optStrNULL c.integration_clauses) := rfl
  refine ⟨?_, ?_, ?_, ?_, ?_, ?_, ?_, ?_, ?_, ?_, ?_, ?_, ?_, ?_⟩
  · intro h; rw [e0, h]; rfl
  · intro h; rw [e1, h]; rfl
  · intro h; rw [e2, h]; rfl
  · intro h; rw [e3, h]; rfl
  · intro h; rw [e4, h]; rfl
  · intro h; rw [e9, h]; rfl
  · intro h
    have e : (display_contract_data c).get? 10 =
        some ("Payment Delay",
          match c.payment_delay with
          | some n => if n = 0 then "NULL" else toString n
          | none => "NULL") := rfl
    rw [e, h]
    decide
  · intro h; rw [e13, h]; rfl
  · intro h; rw [e14, h]; rfl
  · intro n h
    have e : (display_contract_data c).get? 7 =
        some ("Cancellation Notice (INITIAL TERM, DAYS)",
          match c.cancellation_notice_initial with
          | some n => toString n
          | none => "NULL") := rfl
    rw [e, h]
  · intro n h
    have e : (display_contract_data c).get? 8 =
        some ("Cancellation Notice (ONGOING, DAYS)",
          match c.cancellation_notice_ongoing with
          | some n => toString n
          | none => "NULL") := rfl
    rw [e, h]
  · intro h
    have e : (display_contract_data c).get? 5 =
        some ("Contract Period",
          match c.contract_period with
          | some n => toString n ++ " months"
          | none => "NULL") := rfl
    rw [e, h]
    rfl
  · intro h
    have e : (display_contract_data c).get? 11 =
        some ("Payment amount, setup fee",
          match c.payment_amount_setup with
          | some v => "$" ++ format_2f v
          | none => "NULL") := rfl
    rw [e, h]
    decide
  · intro h
    have e : (display_contract_data c).get? 12 =
        some ("Payment amount per terms",
          match c.payment_amount_per_terms with
          | some v => "$" ++ format_2f v
          | none => "NULL") := rfl
    rw [e, h]
    decide

/-- A record whose present fields are all falsy (empty strings, zero
integers/floats). -/
def rec_falsy : SoftwareContract :=
  ⟨"", "", "", some "", some "", some 0, some false, some 0, some 0,
   some "", some 0, some 0, some 0, some "", some "", "DEALER", -1⟩

/-- Witness for C10's theorem at a record with present falsy values. -/
theorem c10_truthiness_rendering_witness :
    (display_contract_data rec_falsy).get? 0 = some ("Software/System Name", "NULL") ∧
    (display_contract_data rec_falsy).get? 3 = some ("Contract Start", "NULL") ∧
    (display_contract_data rec_falsy).get? 10 = some ("Payment Delay", "NULL") ∧
    (display_contract_data rec_falsy).get? 7 =
      some ("Cancellation Notice (INITIAL TERM, DAYS)", toString (0 : Int)) ∧
    (display_contract_data rec_falsy).get? 5 = some ("Contract Period", "0 months") ∧
    (display_contract_data rec_falsy).get? 11 =
      some ("Payment amount, setup fee", "$0.00") := by
  have h := c10_truthiness_rendering rec_falsy
  exact ⟨h.1 rfl, h.2.2.2.1 rfl, h.2.2.2.2.2.2.1 rfl,
    h.2.2.2.2.2.2.2.2.2.1 0 rfl, h.2.2.2.2.2.2.2.2.2.2.2.1 rfl,
    h.2.2.2.2.2.2.2.2.2.2.2.2.1 rfl⟩

end ContractExtractor
